import Mathlib

/-!
Verification of the immob backend's counter/cache consistency pattern.

The definitions below are a shallow embedding of the relevant Python code:

* `properties/models.py` — `Property`, `Favorite` (with its `save`/`delete`
  counter recomputation);
* `properties/views.py` — `PropertyViewSet` (`get_queryset`, `list`,
  `retrieve`, `featured`, `stats`, `perform_create`/`update`/`destroy`,
  `_get_cache_key`, `_invalidate_property_cache`) and `FavoriteViewSet`
  (`create` toggle, `perform_destroy`);
* `reviews/models.py` — `Review.save`, `ReviewLike.save`;
* `reviews/views.py` — `ReviewViewSet.like`;
* `notifications/models.py` / `views.py` / `serializers.py` — the
  notification read-state lifecycle.

Database rows are lists of records, the external key-value cache is a list of
key/value pairs (TTL expiry is the external cache service's behaviour and is
not modelled; `set` takes the timeout argument to mirror the call shape).
-/

namespace Immob

/-! ### The external key-value cache (`django.core.cache`) -/

/-- The key-value cache: `get(key)`, `set(key, value, ttl)`, `delete(key)`,
`delete_pattern(prefix*)`. Entries are key/value pairs; expiry is external. -/
structure Cache where
  entries : List (String × String)
deriving DecidableEq

def Cache.get (c : Cache) (k : String) : Option String :=
  (c.entries.find? (fun e => e.1 == k)).map (fun e => e.2)

/-- `cache.set(key, value, timeout)`; the timeout is kept in the signature to
mirror the call but expiry is not modelled. -/
def Cache.set (c : Cache) (k v : String) (_ttl : Nat) : Cache :=
  ⟨(k, v) :: c.entries.filter (fun e => !(e.1 == k))⟩

def Cache.del (c : Cache) (k : String) : Cache :=
  ⟨c.entries.filter (fun e => !(e.1 == k))⟩

/-- Whether `pre` is a leading substring of `s` (character-wise). -/
def strStartsWith (s pre : String) : Bool :=
  pre.data.isPrefixOf s.data

/-- `cache.delete_pattern(pre ++ "*")`: a trailing-star glob deletes every key
that starts with the given prefix string. -/
def Cache.delPattern (c : Cache) (pre : String) : Cache :=
  ⟨c.entries.filter (fun e => !(strStartsWith e.1 pre))⟩

/-! ### Properties and favorites (`properties/models.py`, `properties/views.py`) -/

/-- A `Property` row, restricted to the fields the claims touch. -/
structure Property where
  id : Nat
  status : String
  is_featured : Bool
  is_verified : Bool
  views_count : Nat
  favorites_count : Nat
  published_at : Option Nat
deriving DecidableEq

/-- A `Favorite` join row (user, property). -/
structure Favorite where
  user : Nat
  property : Nat
deriving DecidableEq

/-- The system state the property endpoints see: the relational rows plus the
external response cache. -/
structure Store where
  properties : List Property
  favorites : List Favorite
  cache : Cache
deriving DecidableEq

/-- `self.property.favorites.count()`: number of Favorite rows referencing a
property. -/
def favCount (favs : List Favorite) (pid : Nat) : Nat :=
  (favs.filter (fun f => f.property == pid)).length

/-- Number of Favorite rows for one (user, property) pair. -/
def pairCount (favs : List Favorite) (u pid : Nat) : Nat :=
  (favs.filter (fun f => f.user == u && f.property == pid)).length

/-- `Favorite.save` (properties/models.py 184-188): insert the join row, then
recompute the parent property's `favorites_count` as a full count over all
Favorite rows referencing it and persist that one field. (`Property.save` is
called with `update_fields=['favorites_count']`, so only the counter is
written.) -/
def favoriteSave (s : Store) (u pid : Nat) : Store :=
  let favs := s.favorites ++ [⟨u, pid⟩]
  { s with
    favorites := favs,
    properties := s.properties.map fun p =>
      if p.id == pid then { p with favorites_count := favCount favs pid } else p }

/-- `Favorite.delete` (properties/models.py 190-195): capture the parent
property, delete the row, then recompute and persist the counter the same
way. -/
def favoriteDeleteRow (s : Store) (u pid : Nat) : Store :=
  let favs := s.favorites.eraseP (fun f => f.user == u && f.property == pid)
  { s with
    favorites := favs,
    properties := s.properties.map fun p =>
      if p.id == pid then { p with favorites_count := favCount favs pid } else p }

inductive ToggleResult where
  | badRequest
  | notFound
  | added
  | removed
deriving DecidableEq

/-- `FavoriteViewSet.create` (properties/views.py 253-281): 400 without a
`property_id`, 404 when no such Property row exists (unfiltered manager), then
`get_or_create` — if the row already existed it is deleted (toggle off),
otherwise it was created by `get_or_create` (toggle on). -/
def favoriteToggle (s : Store) (u : Nat) (pid? : Option Nat) :
    Store × ToggleResult :=
  match pid? with
  | none => (s, .badRequest)
  | some pid =>
    match s.properties.find? (fun p => p.id == pid) with
    | none => (s, .notFound)
    | some _ =>
      if (s.favorites.find? (fun f => f.user == u && f.property == pid)).isSome then
        (favoriteDeleteRow s u pid, .removed)
      else
        (favoriteSave s u pid, .added)

/-- `FavoriteViewSet.perform_destroy` (properties/views.py 300-303): the
instance comes from the user's own queryset (404 when absent), `delete()` runs
`Favorite.delete`, then the user's favorites-list cache key is dropped. -/
def favoriteDestroy (s : Store) (u pid : Nat) : Store :=
  if (s.favorites.find? (fun f => f.user == u && f.property == pid)).isSome then
    let s' := favoriteDeleteRow s u pid
    { s' with cache := s'.cache.del ("favorites_list_" ++ toString u) }
  else s

/-- A favorite write performed through the API: the toggle endpoint or a
favorite destroy. -/
inductive FavOp where
  | toggle (u : Nat) (pid? : Option Nat)
  | destroy (u pid : Nat)

def applyFavOp (s : Store) : FavOp → Store
  | .toggle u pid? => (favoriteToggle s u pid?).1
  | .destroy u pid => favoriteDestroy s u pid

def applyFavOps (s : Store) (ops : List FavOp) : Store :=
  ops.foldl applyFavOp s

/-- Counter consistency: every property's stored `favorites_count` equals the
number of Favorite rows referencing it. -/
def favInvariant (s : Store) : Prop :=
  ∀ p ∈ s.properties, p.favorites_count = favCount s.favorites p.id

instance (s : Store) : Decidable (favInvariant s) :=
  List.decidableBAll _ s.properties

/-- The stored `favorites_count` of the property row with the given id. -/
def favoritesCountOf (s : Store) (pid : Nat) : Option Nat :=
  (s.properties.find? (fun p => p.id == pid)).map (fun p => p.favorites_count)

/-- The stored `views_count` of the property row with the given id. -/
def viewsOf (s : Store) (pid : Nat) : Option Nat :=
  (s.properties.find? (fun p => p.id == pid)).map (fun p => p.views_count)

/-! ### PropertyViewSet endpoints -/

/-- Outcome of a Python call: normal return, or an uncaught `AttributeError`
or `FieldError` naming the attribute/field that failed to resolve. -/
inductive PyOutcome (α : Type) where
  | ok (val : α)
  | attributeError (name : String)
  | fieldError (name : String)
deriving DecidableEq

/-- A property is in the base queryset iff its status is `for_sale` or
`for_rent` (`status__in=['for_sale','for_rent']`, views.py 38-40). -/
def visibleStatus (p : Property) : Bool :=
  p.status == "for_sale" || p.status == "for_rent"

/-- The names resolvable as relations on `Property`: its forward relations
and the reverse related names declared across the models (`images`,
`favorites`, `favorited_by`, `reviews`, ...). `amenities` is not among them —
no field, relation or model of that name exists anywhere in the repository
(the `has_*` booleans are the only "amenities"). -/
def propertyRelatedNames : List String :=
  ["images", "favorites", "favorited_by", "property_type", "location",
   "owner", "agent", "reviews"]

/-- The root lookups of `prefetch_related('images', 'amenities',
'property_type__category')` (views.py 31-32); `property_type__category`
roots at `property_type`. -/
def propertyPrefetchRoots : List String :=
  ["images", "amenities", "property_type"]

/-- Whether every prefetch lookup requested by `get_queryset` resolves on
Property. It does not: `amenities` is invalid. -/
def propertyPrefetchOk : Bool :=
  propertyPrefetchRoots.all propertyRelatedNames.contains

/-- Fetching the rows of a queryset built on `PropertyViewSet.get_queryset`
runs the prefetches: with an empty result prefetching short-circuits, with at
least one result row the invalid `amenities` lookup raises
`AttributeError`. -/
def evalPropertyQueryset (l : List Property) : PyOutcome (List Property) :=
  if l.isEmpty then .ok l
  else if propertyPrefetchOk then .ok l
  else .attributeError "amenities"

/-- views.py 42-45: a truthy `status` query parameter narrows by that status
(a falsy — absent or empty — parameter applies no filter). -/
def applyStatusFilter (params : List (String × String)) (l : List Property) :
    List Property :=
  match params.lookup "status" with
  | some v => if v == "" then l else l.filter (fun p => p.status == v)
  | none => l

/-- views.py 47-50: `verified=true` (case-insensitive) narrows to verified
rows. -/
def applyVerifiedFilter (params : List (String × String)) (l : List Property) :
    List Property :=
  match params.lookup "verified" with
  | some v => if !(v == "") && v.toLower == "true"
      then l.filter (fun p => p.is_verified) else l
  | none => l

/-- views.py 52-55: `featured=true` (case-insensitive) narrows to featured
rows. -/
def applyFeaturedFilter (params : List (String × String)) (l : List Property) :
    List Property :=
  match params.lookup "featured" with
  | some v => if !(v == "") && v.toLower == "true"
      then l.filter (fun p => p.is_featured) else l
  | none => l

/-- `PropertyViewSet.get_queryset` (views.py 27-57): the base
`status__in=['for_sale','for_rent']` filter, then the optional `status`,
`verified` and `featured` query-parameter filters. The annotations only add
computed columns and do not change membership. -/
def propertyGetQueryset (props : List Property) (params : List (String × String)) :
    List Property :=
  applyFeaturedFilter params
    (applyVerifiedFilter params
      (applyStatusFilter params (props.filter visibleStatus)))

/-- Response-shape serialization of one property (the serializer output,
restricted to the modelled fields). -/
def serializeProperty (p : Property) : String :=
  "id=" ++ toString p.id ++ "&status=" ++ p.status ++
  "&views_count=" ++ toString p.views_count ++
  "&favorites_count=" ++ toString p.favorites_count ++
  "&is_featured=" ++ (if p.is_featured then "true" else "false") ++
  "&is_verified=" ++ (if p.is_verified then "true" else "false")

def serializeList (l : List Property) : String :=
  "[" ++ String.intercalate ";" (l.map serializeProperty) ++ "]"

/-- Stand-in for Python's `hash` of the joined parameter string: any
deterministic function of the string; nothing below depends on its values. -/
def hashStr (s : String) : String := s

def insertSorted (kv : String × String) :
    List (String × String) → List (String × String)
  | [] => [kv]
  | e :: es =>
    if decide (kv.1 < e.1) then kv :: e :: es else e :: insertSorted kv es

/-- `sorted(params.items())`: the query parameters sorted by key. -/
def sortParams : List (String × String) → List (String × String)
  | [] => []
  | kv :: rest => insertSorted kv (sortParams rest)

/-- `PropertyViewSet._get_cache_key` (views.py 120-125): join the sorted
parameters as `k=v` pairs with `&`; the key is `prefix:hash(joined)` or the
bare prefix when there are no parameters. -/
def cacheKeyFor (pre : String) (params : List (String × String)) : String :=
  let sp := String.intercalate "&" ((sortParams params).map (fun kv => kv.1 ++ "=" ++ kv.2))
  if sp == "" then pre else pre ++ ":" ++ hashStr sp

/-- `PropertyViewSet.list` (views.py 64-80): on a cache hit return the cached
payload before any queryset work; otherwise `super().list` evaluates the page
— an `amenities` 500 whenever the queryset is nonempty — and on success the
serialized response is cached for `CACHE_TIMEOUT_PROPERTY_LIST = 300`
seconds (the exception aborts the request before `cache.set`). -/
def propertyList (s : Store) (params : List (String × String)) :
    Store × PyOutcome String :=
  let key := cacheKeyFor "property_list" params
  match s.cache.get key with
  | some v => (s, .ok v)
  | none =>
    match evalPropertyQueryset (propertyGetQueryset s.properties params) with
    | .ok qs =>
      let payload := serializeList qs
      ({ s with cache := s.cache.set key payload 300 }, .ok payload)
    | .attributeError n => (s, .attributeError n)
    | .fieldError n => (s, .fieldError n)

inductive RetrieveResult where
  | ok (payload : String)
  | notFound
  | serverError (exc : String)
deriving DecidableEq

/-- `PropertyViewSet.retrieve` (views.py 82-103): `get_object()` evaluates
the filtered queryset — a miss short-circuits the prefetches and 404s, while
a hit runs them and raises `AttributeError` on the invalid `amenities`
lookup. The rest of the handler — the unconditional
`update(views_count=F('views_count')+1)` on all rows with that pk,
`refresh_from_db`, serialization and `cache.set` of the detail key (lines
91-103, kept below behind the prefetch guard) — is therefore unreachable.
The cache is never read. -/
def propertyRetrieve (s : Store) (pk : Nat) (params : List (String × String)) :
    Store × RetrieveResult :=
  match (propertyGetQueryset s.properties params).find? (fun p => p.id == pk) with
  | none => (s, .notFound)
  | some _ =>
    if propertyPrefetchOk then
      let props := s.properties.map fun p =>
        if p.id == pk then { p with views_count := p.views_count + 1 } else p
      match props.find? (fun p => p.id == pk) with
      | none => ({ s with properties := props }, .notFound)
      | some p' =>
        let payload := serializeProperty p'
        ({ s with
            properties := props,
            cache := s.cache.set ("property_detail_" ++ toString pk) payload 600 },
          .ok payload)
    else (s, .serverError "amenities")

/-- The queryset behind `PropertyViewSet.featured` (views.py 153-168):
`get_queryset().filter(is_featured=True)[:8]`. -/
def featuredQueryset (props : List Property) (params : List (String × String)) :
    List Property :=
  ((propertyGetQueryset props params).filter (fun p => p.is_featured)).take 8

/-- `PropertyViewSet.featured` (views.py 153-168): cached under the fixed key
`property_featured`; on a miss, serializing the featured queryset evaluates
it — an `amenities` 500 whenever it is nonempty, else the payload is cached
for 600 seconds. -/
def propertyFeatured (s : Store) (params : List (String × String)) :
    Store × PyOutcome String :=
  match s.cache.get "property_featured" with
  | some v => (s, .ok v)
  | none =>
    match evalPropertyQueryset (featuredQueryset s.properties params) with
    | .ok qs =>
      let payload := serializeList qs
      ({ s with cache := s.cache.set "property_featured" payload 600 }, .ok payload)
    | .attributeError n => (s, .attributeError n)
    | .fieldError n => (s, .fieldError n)

/-- The aggregate body of `PropertyViewSet.stats` (views.py 170-212), over the
unfiltered manager, restricted to the modelled fields. -/
def serializeStats (props : List Property) : String :=
  "total_properties=" ++ toString props.length ++
  "&for_sale=" ++ toString (props.filter (fun p => p.status == "for_sale")).length ++
  "&for_rent=" ++ toString (props.filter (fun p => p.status == "for_rent")).length ++
  "&featured_properties=" ++ toString (props.filter (fun p => p.is_featured)).length ++
  "&verified_properties=" ++ toString (props.filter (fun p => p.is_verified)).length ++
  "&total_views=" ++ toString (props.map (fun p => p.views_count)).sum

/-- `PropertyViewSet.stats` (views.py 170-212): cached under the fixed key
`property_stats` for `CACHE_TIMEOUT_STATS = 3600` seconds. -/
def propertyStats (s : Store) : Store × String :=
  match s.cache.get "property_stats" with
  | some v => (s, v)
  | none =>
    let payload := serializeStats s.properties
    ({ s with cache := s.cache.set "property_stats" payload 3600 }, payload)

/-- `PropertyViewSet._invalidate_property_cache` (views.py 127-131):
`cache.delete_pattern('property_list:*')` followed by
`cache.delete('property_stats')` — and nothing else. -/
def invalidatePropertyCache (c : Cache) : Cache :=
  (c.delPattern "property_list:").del "property_stats"

/-- `Property.save` (models.py 140-144): stamp `published_at` on the first
save with a `for_sale`/`for_rent` status. -/
def propertyModelSave (p : Property) (now : Nat) : Property :=
  if visibleStatus p && p.published_at.isNone then { p with published_at := some now } else p

/-- `PropertyViewSet.perform_create` (views.py 105-108): save the new row,
then invalidate the property caches. -/
def performCreate (s : Store) (p : Property) (now : Nat) : Store :=
  { s with
    properties := s.properties ++ [propertyModelSave p now],
    cache := invalidatePropertyCache s.cache }

/-- `PropertyViewSet.perform_update` (views.py 110-113): save the edited row,
then invalidate the property caches. -/
def performUpdate (s : Store) (p : Property) (now : Nat) : Store :=
  { s with
    properties := s.properties.map fun q =>
      if q.id == p.id then propertyModelSave p now else q,
    cache := invalidatePropertyCache s.cache }

/-- `PropertyViewSet.perform_destroy` (views.py 115-118): delete the row, then
invalidate the property caches. -/
def performDestroy (s : Store) (pk : Nat) : Store :=
  { s with
    properties := s.properties.filter (fun q => !(q.id == pk)),
    cache := invalidatePropertyCache s.cache }

/-! ### Reviews and review likes (`reviews/models.py`, `reviews/views.py`) -/

/-- A `Review` row, restricted to the fields the claims touch. -/
structure Review where
  id : Nat
  user : Nat
  property : Nat
  rating : Nat
  likes_count : Nat
  is_approved : Bool
deriving DecidableEq

/-- A `ReviewLike` join row (user, review). -/
structure ReviewLike where
  user : Nat
  review : Nat
deriving DecidableEq

structure ReviewStore where
  reviews : List Review
  likes : List ReviewLike
deriving DecidableEq

/-- `ReviewLike.objects.filter(review=...).count()`. -/
def likeCount (likes : List ReviewLike) (rid : Nat) : Nat :=
  (likes.filter (fun l => l.review == rid)).length

/-- The attribute names bound in `class Property` (properties/models.py
75-144): the choices list, the model fields, `Meta`, `__str__` and `save`.
`update_average_rating` is not among them, and no such name is defined
anywhere in the repository (nor on the framework's model base class). -/
def propertyClassAttrs : List String :=
  ["STATUS_CHOICES", "id", "title", "description", "property_type", "location",
   "status", "price", "currency", "area", "bedrooms", "bathrooms",
   "parking_spaces", "has_kitchen", "has_living_room", "has_dining_room",
   "has_balcony", "has_garden", "has_pool", "has_garage", "has_security",
   "has_internet", "has_ac", "owner", "agent", "is_featured", "is_verified",
   "views_count", "favorites_count", "favorited_by", "created_at",
   "updated_at", "published_at", "Meta", "__str__", "save"]

def propertyHasAttr (name : String) : Bool :=
  propertyClassAttrs.contains name

/-- `ReviewLike.save` (reviews/models.py 61-64): `super().save()` inserts the
row, then the recomputed count is assigned and persisted by
`self.review.save(update_fields=['likes_count'])` — which dispatches to the
overridden `Review.save` (models.py 42-45): its own `super().save()` writes
the field, after which `self.property.update_average_rating()` raises
`AttributeError`. Outside a transaction both writes remain and the exception
propagates to the caller. -/
def reviewLikeSave (s : ReviewStore) (u rid : Nat) :
    ReviewStore × PyOutcome Unit :=
  let likes := s.likes ++ [⟨u, rid⟩]
  let s' : ReviewStore :=
    { reviews := s.reviews.map fun r =>
        if r.id == rid then { r with likes_count := likeCount likes rid } else r,
      likes := likes }
  if propertyHasAttr "update_average_rating" then (s', .ok ())
  else (s', .attributeError "update_average_rating")

/-- Deletion of a `ReviewLike` row. The model defines **no** `delete`
override (reviews/models.py 48-64), so `like.delete()` is the framework's
plain row delete: the row disappears and nothing recomputes `likes_count`
(contrast `Favorite.delete`). -/
def reviewLikeDeleteRow (s : ReviewStore) (u rid : Nat) : ReviewStore :=
  { s with likes := s.likes.eraseP (fun l => l.user == u && l.review == rid) }

/-- The names resolvable in `Review` querysets: the model fields plus the
reverse related names `liked_by` (from `ReviewLike.review`,
reviews/models.py 50) and `images` (from `ReviewImage.review`). `likes` is
not among them. -/
def reviewRelationNames : List String :=
  ["id", "user", "property", "rating", "title", "comment",
   "is_verified_purchase", "likes_count", "is_approved", "is_edited",
   "created_at", "updated_at", "liked_by", "images"]

/-- `ReviewViewSet.get_queryset` (reviews/views.py 24-56):
`.annotate(likes_annotate_count=Count('likes', ...), user_has_liked=
Count('likes', ...))` resolves the name eagerly when `.annotate` is called,
and `likes` is not a Review relation (the related name is `liked_by`), so
every call raises `FieldError` before the approved-only filter can serve a
row. -/
def reviewGetQueryset (s : ReviewStore) : PyOutcome (List Review) :=
  if reviewRelationNames.contains "likes" then
    .ok (s.reviews.filter (fun r => r.is_approved))
  else .fieldError "likes"

inductive LikeResult where
  | liked
  | unliked
  | notFound
  | error (exc : String)
deriving DecidableEq

/-- `ReviewViewSet.like` (reviews/views.py 102-117): `self.get_object()`
calls `get_queryset`, which raises `FieldError` on every call (the invalid
`likes` annotation), so the endpoint 500s before any toggle work. The
intended branches are kept below: 404 when the review is absent from the
approved queryset; unlike via a plain row delete when the like row exists;
otherwise `get_or_create` runs the insert inside `transaction.atomic`, where
`ReviewLike.save` raises `AttributeError` (via the chained `Review.save`)
and the insert is rolled back. -/
def reviewLikeToggle (s : ReviewStore) (u rid : Nat) : ReviewStore × LikeResult :=
  match reviewGetQueryset s with
  | .fieldError _ => (s, .error "FieldError")
  | .attributeError _ => (s, .error "AttributeError")
  | .ok qs =>
    match qs.find? (fun r => r.id == rid) with
    | none => (s, .notFound)
    | some _ =>
      if (s.likes.find? (fun l => l.user == u && l.review == rid)).isSome then
        (reviewLikeDeleteRow s u rid, .unliked)
      else
        match reviewLikeSave s u rid with
        | (s1, .ok _) => (s1, .liked)
        | (_, _) => (s, .error "AttributeError")

/-- The stored `likes_count` of the review row with the given id. -/
def likesCountOf (s : ReviewStore) (rid : Nat) : Option Nat :=
  (s.reviews.find? (fun r => r.id == rid)).map (fun r => r.likes_count)

/-- `Review.save` (reviews/models.py 42-45): persist the row (upsert by pk),
then evaluate `self.property.update_average_rating()` — an attribute lookup on
the Property class; when the attribute does not exist the lookup raises
`AttributeError` after the row was already written. -/
def reviewModelSave (s : ReviewStore) (r : Review) : ReviewStore × PyOutcome Unit :=
  let s' := { s with reviews := (s.reviews.filter (fun q => !(q.id == r.id))) ++ [r] }
  if propertyHasAttr "update_average_rating" then
    (s', .ok ())
  else
    (s', .attributeError "update_average_rating")

/-- `ReviewViewSet.perform_create` (reviews/views.py 78-81):
`serializer.save()` drives `Review.save`; an exception there aborts the
request before the cache invalidation. -/
def reviewCreateRequest (s : ReviewStore) (r : Review) : ReviewStore × PyOutcome Unit :=
  reviewModelSave s r

/-- `ReviewViewSet.perform_update` (reviews/views.py 83-85): same path. -/
def reviewUpdateRequest (s : ReviewStore) (r : Review) : ReviewStore × PyOutcome Unit :=
  reviewModelSave s r

/-! ### Notifications (`notifications/models.py`, `views.py`, `serializers.py`) -/

/-- A `Notification` row. -/
structure Notification where
  id : Nat
  user : Nat
  title : String
  message : String
  notification_type : String
  is_read : Bool
  read_at : Option Nat
  link : Option String
  created_at : Nat
deriving DecidableEq

structure NotifStore where
  notifications : List Notification
deriving DecidableEq

/-- `Notification.mark_as_read` (notifications/models.py 51-57): only when
unread, set `is_read` and stamp `read_at`. -/
def Notification.markAsRead (n : Notification) (now : Nat) : Notification :=
  if n.is_read then n else { n with is_read := true, read_at := some now }

def findById (s : NotifStore) (i : Nat) : Option Notification :=
  s.notifications.find? (fun n => n.id == i)

/-- `NotificationViewSet.retrieve` (views.py 74-85): `get_object` over the
requesting user's queryset; when unread, `mark_as_read` persists the flip. -/
def notifRetrieve (s : NotifStore) (u pk now : Nat) : NotifStore :=
  match (s.notifications.filter (fun n => n.user == u)).find? (fun n => n.id == pk) with
  | none => s
  | some n =>
    ⟨s.notifications.map fun m => if m.id == n.id then m.markAsRead now else m⟩

/-- `NotificationViewSet.mark_all_read` (views.py 98-112): count the user's
unread rows, then a set-based `update(is_read=True, read_at=now)` on them. -/
def markAllRead (s : NotifStore) (u now : Nat) : NotifStore × Nat :=
  let cnt := (s.notifications.filter (fun n => n.user == u && !n.is_read)).length
  (⟨s.notifications.map fun n =>
      if n.user == u && !n.is_read then { n with is_read := true, read_at := some now } else n⟩,
    cnt)

/-- `.first()` of the `-created_at`-ordered queryset: the row with the
greatest `created_at`, modelled as a maximum scan. -/
def mostRecent : List Notification → Option Notification
  | [] => none
  | n :: ns =>
    match mostRecent ns with
    | none => some n
    | some m => if m.created_at ≤ n.created_at then some n else some m

/-- `NotificationViewSet.mark_read` (views.py 114-147): with a non-empty
`notification_ids` list, a set-based update of the user's matching unread rows
(count taken before the update); with the field absent or empty, mark only the
user's most recent unread notification (`.first()` under the model's
`-created_at` ordering) and report count 1, or count 0 when there is none. -/
def markRead (s : NotifStore) (u : Nat) (ids : List Nat) (now : Nat) :
    NotifStore × Nat :=
  if ids.isEmpty then
    match mostRecent (s.notifications.filter (fun n => n.user == u && !n.is_read)) with
    | none => (s, 0)
    | some n =>
      (⟨s.notifications.map fun m => if m.id == n.id then m.markAsRead now else m⟩, 1)
  else
    let cnt := (s.notifications.filter
      (fun n => n.user == u && ids.contains n.id && !n.is_read)).length
    (⟨s.notifications.map fun n =>
        if n.user == u && ids.contains n.id && !n.is_read
        then { n with is_read := true, read_at := some now } else n⟩,
      cnt)

/-- A PATCH body for `NotificationSerializer` (serializers.py 6-25): every
field except `id`, `user`, `created_at` and the read-only display field is
writable — in particular `is_read` and `read_at`. -/
structure NotifPatch where
  title : Option String := none
  message : Option String := none
  notification_type : Option String := none
  is_read : Option Bool := none
  read_at : Option (Option Nat) := none
  link : Option (Option String) := none
deriving DecidableEq

def applyPatch (n : Notification) (b : NotifPatch) : Notification :=
  { n with
    title := b.title.getD n.title,
    message := b.message.getD n.message,
    notification_type := b.notification_type.getD n.notification_type,
    is_read := b.is_read.getD n.is_read,
    read_at := b.read_at.getD n.read_at,
    link := b.link.getD n.link }

/-- `PATCH /notifications/{pk}/` (ModelViewSet.partial_update with
`NotificationSerializer`): load the user's row, apply the provided writable
fields, save. -/
def notifPartialUpdate (s : NotifStore) (u pk : Nat) (b : NotifPatch) : NotifStore :=
  match (s.notifications.filter (fun n => n.user == u)).find? (fun n => n.id == pk) with
  | none => s
  | some n =>
    ⟨s.notifications.map fun m => if m.id == n.id then applyPatch m b else m⟩

/-- Concrete run for `favorites_counter_invariant`: one visible property, a
toggle-on by user 1, a toggle-on by user 2, then user 1 destroys their
favorite. -/
def favWitnessStore : Store :=
  ⟨[⟨1, "for_sale", false, false, 0, 0, some 0⟩], [], ⟨[]⟩⟩

def favWitnessOps : List FavOp :=
  [.toggle 1 (some 1), .toggle 2 (some 1), .destroy 1 1]

/-- Concrete witness state for `favorite_toggle_roundtrip`. -/
def togglePropertyW : Property := ⟨7, "for_rent", false, false, 0, 0, some 0⟩

def toggleStoreW : Store := ⟨[togglePropertyW], [], ⟨[]⟩⟩

/-- A visible property starting at `views_count = 0`: its detail retrieve is
the failing input for the views-increment claim. -/
def c5Property : Property := ⟨1, "for_sale", false, false, 0, 0, some 0⟩

def c5Store : Store := ⟨[c5Property], [], ⟨[]⟩⟩

/-- Witness scenario for `hidden_property_not_retrievable`: a `sold` property
is invisible to list/featured and 404s on detail without a view increment. -/
def c6Store : Store := ⟨[⟨4, "sold", true, true, 5, 0, none⟩], [], ⟨[]⟩⟩

/-- Concrete cache hits for `cache_hit_bypasses_store`. -/
def c7Store : Store :=
  ⟨[⟨1, "for_sale", false, false, 0, 0, some 0⟩], [],
    ⟨[("property_list", "LCACHED"), ("property_stats", "SCACHED")]⟩⟩

/-- A visible property with a stale cached detail entry under its key. -/
def c7DetailStore : Store :=
  ⟨[⟨1, "for_sale", false, false, 0, 0, some 0⟩], [],
    ⟨[("property_detail_1", "STALE")]⟩⟩

/-! ### Claim C2: review like counter on delete -/

/-! ### Claim C9: notification read-state monotonicity -/

/-- A read notification with a stamped `read_at`. -/
def c9Store : NotifStore := ⟨[⟨1, 1, "t", "m", "system", true, some 5, none, 10⟩]⟩

/-- A PATCH body flipping `is_read` off and clearing `read_at`. -/
def c9Patch : NotifPatch := { is_read := some false, read_at := some none }

def c9wNotif : Notification := ⟨1, 1, "t", "m", "system", true, some 3, none, 0⟩

def c9wStore : NotifStore := ⟨[c9wNotif]⟩

/-- Two unread notifications for user 1; the one with the later
`created_at` (id 2) is the one marked. -/
def c10Store : NotifStore :=
  ⟨[⟨1, 1, "a", "m", "system", false, none, none, 5⟩,
    ⟨2, 1, "b", "m", "system", false, none, none, 9⟩]⟩

/-! ### Generic list lemmas used throughout -/

/-- `find?` over a key predicate commutes with a key-preserving map. -/
theorem find_map_key {α : Type} (key : α → Nat) (f : α → α)
    (hf : ∀ x, key (f x) = key x) (l : List α) (k : Nat) :
    (l.map f).find? (fun x => key x == k) = (l.find? (fun x => key x == k)).map f := by
  induction l with
  | nil => rfl
  | cons a l ih =>
    by_cases h : key a = k
    · simp [List.find?, hf, h]
    · simp only [List.map_cons, List.find?]
      rw [show (key (f a) == k) = false by simp [hf, h],
        show (key a == k) = false by simp [h]]
      exact ih

/-- In a list whose keys are pairwise distinct, `find?` by the key of a member
returns exactly that member. -/
theorem find_key_of_nodup {α : Type} (key : α → Nat) (l : List α)
    (hnd : (l.map key).Nodup) (n : α) (hn : n ∈ l) :
    l.find? (fun x => key x == key n) = some n := by
  induction l with
  | nil => cases hn
  | cons a l ih =>
    simp only [List.map_cons, List.nodup_cons] at hnd
    rcases List.mem_cons.mp hn with h | h
    · subst h; simp [List.find?]
    · have hne : key a ≠ key n := by
        intro he
        exact hnd.1 (he ▸ List.mem_map_of_mem key h)
      simp only [List.find?]
      rw [show (key a == key n) = false by simp [hne]]
      exact ih hnd.2 h

theorem find_eq_none_of_forall {α : Type} (p : α → Bool) (l : List α)
    (h : ∀ x ∈ l, p x = false) : l.find? p = none := by
  induction l with
  | nil => rfl
  | cons a l ih =>
    simp only [List.find?]
    rw [h a (List.mem_cons_self a l)]
    exact ih fun x hx => h x (List.mem_cons_of_mem a hx)

/-- Filtering out all elements satisfying `q` makes `find?` fail whenever the
search predicate implies `q`. -/
theorem find_filter_none {α : Type} (l : List α) (q p : α → Bool)
    (h : ∀ e, p e = true → q e = true) :
    (l.filter (fun e => !(q e))).find? p = none := by
  induction l with
  | nil => rfl
  | cons a l ih =>
    by_cases hq : q a = true
    · simpa [List.filter_cons, hq] using ih
    · have hq' : q a = false := by
        cases hqa : q a
        · rfl
        · exact absurd hqa hq
      have hp : p a = false := by
        cases hpa : p a
        · rfl
        · exact absurd (h a hpa) hq
      simpa [List.filter_cons, hq', List.find?, hp] using ih

/-- Filtering out all elements satisfying `q` leaves `find?` unchanged whenever
the search predicate excludes `q`. -/
theorem find_filter_keep {α : Type} (l : List α) (q p : α → Bool)
    (h : ∀ e, p e = true → q e = false) :
    (l.filter (fun e => !(q e))).find? p = l.find? p := by
  induction l with
  | nil => rfl
  | cons a l ih =>
    by_cases hq : q a = true
    · have hp : p a = false := by
        cases hpa : p a
        · rfl
        · rw [h a hpa] at hq; exact absurd hq (by simp)
      simpa [List.filter_cons, hq, List.find?, hp] using ih
    · have hq' : q a = false := by
        cases hqa : q a
        · rfl
        · exact absurd hqa hq
      cases hpa : p a
      · simpa [List.filter_cons, hq', List.find?, hpa] using ih
      · simp [List.filter_cons, hq', List.find?, hpa]

theorem Cache.get_del (c : Cache) (k' k : String) :
    (c.del k').get k = if k = k' then none else c.get k := by
  show ((c.entries.filter _).find? _).map _ = _
  by_cases h : k = k'
  · rw [if_pos h,
      find_filter_none c.entries (fun e => e.1 == k') (fun e => e.1 == k)
        (fun e he => by subst h; exact he)]
    rfl
  · rw [if_neg h,
      find_filter_keep c.entries (fun e => e.1 == k') (fun e => e.1 == k)
        (fun e he => by
          have h1 : e.1 = k := by simpa using he
          simp only [h1]
          simp [h])]
    rfl

theorem Cache.get_delPattern (c : Cache) (pre k : String) :
    (c.delPattern pre).get k = if strStartsWith k pre then none else c.get k := by
  show ((c.entries.filter _).find? _).map _ = _
  by_cases h : strStartsWith k pre = true
  · rw [if_pos h,
      find_filter_none c.entries (fun e => strStartsWith e.1 pre) (fun e => e.1 == k)
        (fun e he => by
          have h1 : e.1 = k := by simpa using he
          simp only [h1]
          exact h)]
    rfl
  · rw [if_neg (by simpa using h),
      find_filter_keep c.entries (fun e => strStartsWith e.1 pre) (fun e => e.1 == k)
        (fun e he => by
          have h1 : e.1 = k := by simpa using he
          simp only [h1]
          simpa using h)]
    rfl

/-! ### Counter lemmas for favorites -/

theorem favCount_append_self (l : List Favorite) (u pid : Nat) :
    favCount (l ++ [⟨u, pid⟩]) pid = favCount l pid + 1 := by
  simp [favCount, List.filter_append]

theorem favCount_append_other (l : List Favorite) (u pid q : Nat) (h : pid ≠ q) :
    favCount (l ++ [⟨u, pid⟩]) q = favCount l q := by
  simp [favCount, List.filter_append, h]

theorem favCount_eraseP_other (l : List Favorite) (u pid q : Nat) (h : q ≠ pid) :
    favCount (l.eraseP (fun f => f.user == u && f.property == pid)) q =
      favCount l q := by
  induction l with
  | nil => rfl
  | cons a l ih =>
    cases ha : (a.user == u && a.property == pid) with
    | true =>
      simp only [List.eraseP_cons, ha, cond_true]
      have hap : a.property = pid := by
        have h2 := (Bool.and_eq_true _ _).mp ha
        simpa using h2.2
      have hne : (a.property == q) = false := by
        simp [hap]
        exact fun hq => h hq.symm
      simp [favCount, List.filter_cons, hne]
    | false =>
      simp only [List.eraseP_cons, ha, cond_false]
      cases haq : (a.property == q) with
      | true => simpa [favCount, List.filter_cons, haq] using ih
      | false => simpa [favCount, List.filter_cons, haq] using ih

theorem favInvariant_favoriteSave (s : Store) (u pid : Nat)
    (h : favInvariant s) : favInvariant (favoriteSave s u pid) := by
  intro p' hp'
  simp only [favoriteSave] at hp' ⊢
  obtain ⟨p, hp, rfl⟩ := List.mem_map.mp hp'
  by_cases hid : p.id = pid
  · have ht : (p.id == pid) = true := by simp [hid]
    rw [if_pos ht]
    simp [hid]
  · have hf : ¬((p.id == pid) = true) := by simp [hid]
    rw [if_neg hf, h p hp]
    exact (favCount_append_other s.favorites u pid p.id fun he => hid he.symm).symm

theorem favInvariant_favoriteDeleteRow (s : Store) (u pid : Nat)
    (h : favInvariant s) : favInvariant (favoriteDeleteRow s u pid) := by
  intro p' hp'
  simp only [favoriteDeleteRow] at hp' ⊢
  obtain ⟨p, hp, rfl⟩ := List.mem_map.mp hp'
  by_cases hid : p.id = pid
  · have ht : (p.id == pid) = true := by simp [hid]
    rw [if_pos ht]
    simp [hid]
  · have hf : ¬((p.id == pid) = true) := by simp [hid]
    rw [if_neg hf, h p hp]
    exact (favCount_eraseP_other s.favorites u pid p.id hid).symm

theorem favInvariant_applyFavOp (s : Store) (op : FavOp)
    (h : favInvariant s) : favInvariant (applyFavOp s op) := by
  cases op with
  | toggle u pid? =>
    cases pid? with
    | none => exact h
    | some pid =>
      show favInvariant (favoriteToggle s u (some pid)).1
      cases hf : s.properties.find? (fun p => p.id == pid) with
      | none =>
        simpa [favoriteToggle, hf] using h
      | some p0 =>
        cases hx : (s.favorites.find? (fun f => f.user == u && f.property == pid)).isSome with
        | true =>
          simpa [favoriteToggle, hf, hx] using
            favInvariant_favoriteDeleteRow s u pid h
        | false =>
          simpa [favoriteToggle, hf, hx] using
            favInvariant_favoriteSave s u pid h
  | destroy u pid =>
    show favInvariant (favoriteDestroy s u pid)
    cases hx : (s.favorites.find? (fun f => f.user == u && f.property == pid)).isSome with
    | true =>
      have h' := favInvariant_favoriteDeleteRow s u pid h
      simp only [favoriteDestroy, hx, if_true]
      intro p hp
      exact h' p hp
    | false =>
      simpa [favoriteDestroy, hx] using h

/-- **C1.** For every property P, after any sequence of Favorite writes
performed through the API (favorite-toggle creates/deletes and favorite
destroys) completes, `P.favorites_count` equals the number of Favorite rows
referencing P: the counter-consistency invariant is preserved by every API
write, because each join-row write recomputes the counter as a full count and
persists that one field. -/
theorem favorites_counter_invariant (ops : List FavOp) (s : Store)
    (h : favInvariant s) : favInvariant (applyFavOps s ops) := by
  induction ops generalizing s with
  | nil => exact h
  | cons op ops ih => exact ih (applyFavOp s op) (favInvariant_applyFavOp s op h)

theorem favorites_counter_invariant_witness :
    favInvariant (applyFavOps favWitnessStore favWitnessOps) :=
  favorites_counter_invariant favWitnessOps favWitnessStore (by decide)

theorem pairCount_append_self (l : List Favorite) (u pid : Nat) :
    pairCount (l ++ [⟨u, pid⟩]) u pid = pairCount l u pid + 1 := by
  simp [pairCount, List.filter_append]

theorem pairCount_zero (l : List Favorite) (u pid : Nat)
    (h : ∀ f ∈ l, ¬((f.user == u && f.property == pid) = true)) :
    pairCount l u pid = 0 := by
  simp [pairCount, List.filter_eq_nil_iff.mpr h]

/-- After mapping a counter-setting update over the property table, the looked
up row with the target id carries exactly the written counter. -/
theorem favoritesCountOf_map_set (props : List Property) (pid c : Nat)
    (hs : (props.find? (fun q => q.id == pid)).isSome = true) :
    ((props.map (fun p =>
        if p.id == pid then { p with favorites_count := c } else p)).find?
          (fun q => q.id == pid)).map (fun p => p.favorites_count) = some c := by
  obtain ⟨p0, hp0⟩ := Option.isSome_iff_exists.mp hs
  rw [find_map_key Property.id _ (by intro x; by_cases hx : x.id = pid <;> simp [hx]), hp0]
  have hpt : p0.id = pid := by simpa using List.find?_some hp0
  simp [hpt]

/-- **C4.** For a (user, property) pair, toggling twice in sequence returns to
the original membership state: starting with a consistent property and no
Favorite rows referencing it, the first toggle creates the row (result
`added`, `favorites_count = 1`, one pair row), the second deletes it (result
`removed`), after which zero pair rows remain, the favorites table is exactly
the original one, and the counter equals its pre-toggle value. -/
theorem favorite_toggle_roundtrip (s : Store) (u pid : Nat) (p : Property)
    (h1 : s.properties.find? (fun q => q.id == pid) = some p)
    (h2 : favCount s.favorites pid = 0)
    (h3 : p.favorites_count = 0) :
    (favoriteToggle s u (some pid)).2 = .added ∧
    favoritesCountOf (favoriteToggle s u (some pid)).1 pid = some 1 ∧
    pairCount (favoriteToggle s u (some pid)).1.favorites u pid = 1 ∧
    (favoriteToggle (favoriteToggle s u (some pid)).1 u (some pid)).2 = .removed ∧
    pairCount (favoriteToggle (favoriteToggle s u (some pid)).1 u (some pid)).1.favorites u pid = 0 ∧
    (favoriteToggle (favoriteToggle s u (some pid)).1 u (some pid)).1.favorites = s.favorites ∧
    favoritesCountOf (favoriteToggle (favoriteToggle s u (some pid)).1 u (some pid)).1 pid =
      some p.favorites_count := by
  have hprop : ∀ f ∈ s.favorites, (f.property == pid) = false := by
    intro f hf
    have hnil : s.favorites.filter (fun f => f.property == pid) = [] :=
      List.length_eq_zero.mp h2
    have hnp := List.filter_eq_nil_iff.mp hnil f hf
    cases hx : (f.property == pid)
    · rfl
    · exact absurd hx hnp
  have hpair : ∀ f ∈ s.favorites, ¬((fun f => f.user == u && f.property == pid) f = true) := by
    intro f hf hk
    have hk2 := ((Bool.and_eq_true _ _).mp hk).2
    rw [hprop f hf] at hk2
    exact Bool.false_ne_true hk2
  have hnone : s.favorites.find? (fun f => f.user == u && f.property == pid) = none :=
    List.find?_eq_none.mpr hpair
  have hT1 : favoriteToggle s u (some pid) = (favoriteSave s u pid, ToggleResult.added) := by
    simp [favoriteToggle, h1, hnone]
  have hs1favs : (favoriteSave s u pid).favorites = s.favorites ++ [⟨u, pid⟩] := rfl
  have hfind1 : (favoriteSave s u pid).properties.find? (fun q => q.id == pid) =
      some { p with favorites_count := favCount (s.favorites ++ [⟨u, pid⟩]) pid } := by
    show (s.properties.map _).find? _ = _
    rw [find_map_key Property.id _ (by intro x; by_cases hx : x.id = pid <;> simp [hx]), h1]
    have hpt : p.id = pid := by simpa using List.find?_some h1
    simp [hpt]
  have hfind2 : (favoriteSave s u pid).favorites.find?
      (fun f => f.user == u && f.property == pid) = some ⟨u, pid⟩ := by
    rw [hs1favs, List.find?_append, hnone]
    simp
  have hT2 : favoriteToggle (favoriteSave s u pid) u (some pid) =
      (favoriteDeleteRow (favoriteSave s u pid) u pid, ToggleResult.removed) := by
    simp [favoriteToggle, hfind1, hfind2]
  have herase : (favoriteSave s u pid).favorites.eraseP
      (fun f => f.user == u && f.property == pid) = s.favorites := by
    rw [hs1favs, List.eraseP_append_right [⟨u, pid⟩] hpair]
    simp
  have hcnt1 : favoritesCountOf (favoriteSave s u pid) pid =
      some (favCount (s.favorites ++ [⟨u, pid⟩]) pid) :=
    favoritesCountOf_map_set s.properties pid _ (by rw [h1]; rfl)
  have hcnt2 : favoritesCountOf (favoriteDeleteRow (favoriteSave s u pid) u pid) pid =
      some (favCount ((favoriteSave s u pid).favorites.eraseP
        (fun f => f.user == u && f.property == pid)) pid) :=
    favoritesCountOf_map_set (favoriteSave s u pid).properties pid _ (by rw [hfind1]; rfl)
  refine ⟨?_, ?_, ?_, ?_, ?_, ?_, ?_⟩
  · simp [hT1]
  · simp only [hT1]
    rw [hcnt1, favCount_append_self, h2]
  · simp only [hT1, hs1favs]
    rw [pairCount_append_self, pairCount_zero s.favorites u pid hpair]
  · simp [hT1, hT2]
  · simp only [hT1, hT2]
    show pairCount ((favoriteSave s u pid).favorites.eraseP
      (fun f => f.user == u && f.property == pid)) u pid = 0
    rw [herase]
    exact pairCount_zero s.favorites u pid hpair
  · simp only [hT1, hT2]
    exact herase
  · simp only [hT1, hT2]
    rw [hcnt2, herase, h2, h3]

theorem favorite_toggle_roundtrip_witness :
    (favoriteToggle toggleStoreW 3 (some 7)).2 = .added ∧
    favoritesCountOf (favoriteToggle toggleStoreW 3 (some 7)).1 7 = some 1 ∧
    pairCount (favoriteToggle toggleStoreW 3 (some 7)).1.favorites 3 7 = 1 ∧
    (favoriteToggle (favoriteToggle toggleStoreW 3 (some 7)).1 3 (some 7)).2 = .removed ∧
    pairCount (favoriteToggle (favoriteToggle toggleStoreW 3 (some 7)).1 3 (some 7)).1.favorites 3 7 = 0 ∧
    (favoriteToggle (favoriteToggle toggleStoreW 3 (some 7)).1 3 (some 7)).1.favorites = toggleStoreW.favorites ∧
    favoritesCountOf (favoriteToggle (favoriteToggle toggleStoreW 3 (some 7)).1 3 (some 7)).1 7 =
      some togglePropertyW.favorites_count :=
  favorite_toggle_roundtrip toggleStoreW 3 7 togglePropertyW (by decide) (by decide) (by decide)

/-! ### Queryset membership lemmas -/

theorem mem_applyStatusFilter (params : List (String × String))
    (l : List Property) (p : Property) (h : p ∈ applyStatusFilter params l) :
    p ∈ l := by
  unfold applyStatusFilter at h
  cases hv : params.lookup "status" with
  | none => simp only [hv] at h; exact h
  | some v =>
    simp only [hv] at h
    split at h
    · exact h
    · exact (List.mem_filter.mp h).1

theorem mem_applyVerifiedFilter (params : List (String × String))
    (l : List Property) (p : Property) (h : p ∈ applyVerifiedFilter params l) :
    p ∈ l := by
  unfold applyVerifiedFilter at h
  cases hv : params.lookup "verified" with
  | none => simp only [hv] at h; exact h
  | some v =>
    simp only [hv] at h
    split at h
    · exact (List.mem_filter.mp h).1
    · exact h

theorem mem_applyFeaturedFilter (params : List (String × String))
    (l : List Property) (p : Property) (h : p ∈ applyFeaturedFilter params l) :
    p ∈ l := by
  unfold applyFeaturedFilter at h
  cases hv : params.lookup "featured" with
  | none => simp only [hv] at h; exact h
  | some v =>
    simp only [hv] at h
    split at h
    · exact (List.mem_filter.mp h).1
    · exact h

/-- Every member of the property queryset is a stored row with a visible
(`for_sale`/`for_rent`) status. -/
theorem mem_propertyGetQueryset (props : List Property)
    (params : List (String × String)) (p : Property)
    (h : p ∈ propertyGetQueryset props params) :
    p ∈ props ∧ visibleStatus p = true := by
  unfold propertyGetQueryset at h
  have h3 := mem_applyStatusFilter params _ p
    (mem_applyVerifiedFilter params _ p (mem_applyFeaturedFilter params _ p h))
  exact ⟨(List.mem_filter.mp h3).1, (List.mem_filter.mp h3).2⟩

/-- **C5 (code evaluation at the failing input).** No detail retrieve ever
increments `views_count`: when the property is found, evaluating the
queryset inside `get_object()` raises `AttributeError` on the invalid
`amenities` prefetch before the `F('views_count') + 1` update runs, so the
request 500s with the whole state — in particular the counter — unchanged
(a miss 404s, also without increment). -/
theorem property_retrieve_crashes_without_increment (s : Store) (pk : Nat)
    (params : List (String × String))
    (h : ((propertyGetQueryset s.properties params).find? (fun p => p.id == pk)).isSome = true) :
    (propertyRetrieve s pk params).1 = s ∧
    (propertyRetrieve s pk params).2 = .serverError "amenities" ∧
    viewsOf (propertyRetrieve s pk params).1 pk = viewsOf s pk := by
  obtain ⟨q, hq⟩ := Option.isSome_iff_exists.mp h
  have hpre : propertyPrefetchOk = false := rfl
  refine ⟨?_, ?_, ?_⟩ <;> simp [propertyRetrieve, hq, hpre]

/-- Witness scenario for `property_retrieve_crashes_without_increment`: a
visible property at `views_count = 0` whose detail retrieve 500s, the
counter untouched. -/
theorem property_retrieve_crashes_without_increment_witness :
    (propertyRetrieve c5Store 1 []).1 = c5Store ∧
    (propertyRetrieve c5Store 1 []).2 = .serverError "amenities" ∧
    viewsOf (propertyRetrieve c5Store 1 []).1 1 = viewsOf c5Store 1 :=
  property_retrieve_crashes_without_increment c5Store 1 [] (by decide)

/-- **C6.** The list and featured querysets only ever contain properties with
status `for_sale` or `for_rent`; and when every row with the requested pk is
hidden (`sold`, `rented`, `pending`, …), detail-retrieve answers not-found
with the state — in particular `views_count` — unchanged. -/
theorem hidden_property_not_retrievable (s : Store)
    (params : List (String × String)) (pk : Nat)
    (h : ∀ p ∈ s.properties, p.id = pk → visibleStatus p = false) :
    (∀ p ∈ propertyGetQueryset s.properties params, visibleStatus p = true) ∧
    (∀ p ∈ featuredQueryset s.properties params, visibleStatus p = true) ∧
    propertyRetrieve s pk params = (s, .notFound) := by
  refine ⟨?_, ?_, ?_⟩
  · exact fun p hp => (mem_propertyGetQueryset s.properties params p hp).2
  · intro p hp
    have hp2 : p ∈ (propertyGetQueryset s.properties params).filter
        (fun p => p.is_featured) := List.take_subset 8 _ hp
    exact (mem_propertyGetQueryset s.properties params p (List.mem_filter.mp hp2).1).2
  · have hnone : (propertyGetQueryset s.properties params).find?
        (fun p => p.id == pk) = none := by
      refine List.find?_eq_none.mpr fun x hx hpred => ?_
      have hxv := mem_propertyGetQueryset s.properties params x hx
      have hxid : x.id = pk := by simpa using hpred
      rw [h x hxv.1 hxid] at hxv
      exact Bool.false_ne_true hxv.2
    simp [propertyRetrieve, hnone]

theorem hidden_property_not_retrievable_witness :
    (∀ p ∈ propertyGetQueryset c6Store.properties [], visibleStatus p = true) ∧
    (∀ p ∈ featuredQueryset c6Store.properties [], visibleStatus p = true) ∧
    propertyRetrieve c6Store 4 [] = (c6Store, .notFound) :=
  hidden_property_not_retrievable c6Store [] 4 (by decide)

/-! ### Claim C7: cache hits -/

/-- **C7 (counterexample).** The claim says a cached entry under the
request's key makes the detail endpoint return the cached payload verbatim
and bypass the entity store. At this concrete state `property_detail_1`
holds `"STALE"`, yet retrieve never consults the cache: it evaluates the
property queryset (an entity-store read) and 500s on the invalid `amenities`
prefetch — the cached payload is not returned (and nothing is written). -/
theorem retrieve_ignores_cached_detail :
    (propertyRetrieve c7DetailStore 1 []).2 = .serverError "amenities" ∧
    (propertyRetrieve c7DetailStore 1 []).2 ≠ .ok "STALE" ∧
    (propertyRetrieve c7DetailStore 1 []).1 = c7DetailStore := by
  refine ⟨?_, ?_, ?_⟩ <;> decide

/-- **C7 (amended).** On the list and stats endpoints, a cached entry under
the request's cache key is returned verbatim and the whole state — in
particular the entity store — is left untouched (the cache check precedes
any queryset work). The detail endpoint is excluded: it never reads the
cache and never returns a cached — or any — payload, since every retrieve
ends in a 404 or the `amenities` 500; see
`retrieve_ignores_cached_detail`. -/
theorem cache_hit_bypasses_store (s : Store)
    (params : List (String × String)) (v : String) :
    (s.cache.get (cacheKeyFor "property_list" params) = some v →
      propertyList s params = (s, .ok v)) ∧
    (s.cache.get "property_stats" = some v →
      propertyStats s = (s, v)) ∧
    (∀ pk, (propertyRetrieve s pk params).2 ≠ .ok v) := by
  refine ⟨?_, ?_, ?_⟩
  · intro h
    simp [propertyList, h]
  · intro h
    simp [propertyStats, h]
  · intro pk
    unfold propertyRetrieve
    cases hq : (propertyGetQueryset s.properties params).find? (fun p => p.id == pk) with
    | none => simp
    | some q => simp [show propertyPrefetchOk = false from rfl]

theorem cache_hit_bypasses_store_witness :
    propertyList c7Store [] = (c7Store, .ok "LCACHED") ∧
    propertyStats c7Store = (c7Store, "SCACHED") ∧
    (∀ pk, (propertyRetrieve c7Store pk []).2 ≠ .ok "LCACHED") :=
  ⟨(cache_hit_bypasses_store c7Store [] "LCACHED").1 (by decide),
   (cache_hit_bypasses_store c7Store [] "SCACHED").2.1 (by decide),
   (cache_hit_bypasses_store c7Store [] "LCACHED").2.2⟩

/-! ### Claim C8: cache invalidation on property writes -/

/-- **C8 (counterexample).** The claim says every property create/update/
delete deletes all cached list keys sharing the `property_list` prefix plus
the aggregate keys `property_stats` and `property_featured`. At this concrete
state a create leaves both the bare parameterless list key `property_list`
(not matched by the `property_list:*` pattern) and the `property_featured`
key (never deleted by `_invalidate_property_cache`) in the cache. -/
theorem invalidation_misses_featured_and_bare_list :
    ((performCreate
        ⟨[], [], ⟨[("property_list", "L0"), ("property_list:h1", "L1"),
          ("property_stats", "S"), ("property_featured", "F")]⟩⟩
        ⟨9, "for_sale", false, false, 0, 0, none⟩ 0).cache.get "property_featured"
      = some "F") ∧
    ((performCreate
        ⟨[], [], ⟨[("property_list", "L0"), ("property_list:h1", "L1"),
          ("property_stats", "S"), ("property_featured", "F")]⟩⟩
        ⟨9, "for_sale", false, false, 0, 0, none⟩ 0).cache.get "property_list"
      = some "L0") := by
  constructor
  · decide
  · decide

theorem invalidate_get (c : Cache) (k : String) :
    (invalidatePropertyCache c).get k =
      if k = "property_stats" then none
      else if strStartsWith k "property_list:" then none
      else c.get k := by
  unfold invalidatePropertyCache
  rw [Cache.get_del]
  by_cases h1 : k = "property_stats"
  · rw [if_pos h1, if_pos h1]
  · rw [if_neg h1, if_neg h1, Cache.get_delPattern]

/-- **C8 (amended).** On every create, update or delete of a Property the
handler deletes all cached keys matching the pattern `property_list:*`
(strictly: keys starting with `property_list:` — the bare parameterless list
key `property_list` is not matched) plus an explicit delete of
`property_stats`; every other key, including `property_featured`, is left
untouched. -/
theorem property_write_invalidates_cache (s : Store) (p : Property)
    (now pk : Nat) (k : String)
    (hdel : strStartsWith k "property_list:" = true ∨ k = "property_stats")
    (k' : String)
    (hkeep : strStartsWith k' "property_list:" = false ∧ k' ≠ "property_stats") :
    ((performCreate s p now).cache.get k = none ∧
     (performUpdate s p now).cache.get k = none ∧
     (performDestroy s pk).cache.get k = none) ∧
    ((performCreate s p now).cache.get k' = s.cache.get k' ∧
     (performUpdate s p now).cache.get k' = s.cache.get k' ∧
     (performDestroy s pk).cache.get k' = s.cache.get k') := by
  have hgone : (invalidatePropertyCache s.cache).get k = none := by
    rw [invalidate_get]
    rcases hdel with h | h
    · by_cases h2 : k = "property_stats"
      · rw [if_pos h2]
      · rw [if_neg h2, if_pos h]
    · rw [if_pos h]
  have hsame : (invalidatePropertyCache s.cache).get k' = s.cache.get k' := by
    rw [invalidate_get, if_neg hkeep.2, hkeep.1]
    rfl
  exact ⟨⟨hgone, hgone, hgone⟩, ⟨hsame, hsame, hsame⟩⟩

theorem property_write_invalidates_cache_witness :
    (((performCreate c7Store ⟨9, "for_rent", false, false, 0, 0, none⟩ 0).cache.get
        "property_list:h1" = none ∧
      (performUpdate c7Store ⟨9, "for_rent", false, false, 0, 0, none⟩ 0).cache.get
        "property_list:h1" = none ∧
      (performDestroy c7Store 9).cache.get "property_list:h1" = none) ∧
     ((performCreate c7Store ⟨9, "for_rent", false, false, 0, 0, none⟩ 0).cache.get
        "property_featured" = c7Store.cache.get "property_featured" ∧
      (performUpdate c7Store ⟨9, "for_rent", false, false, 0, 0, none⟩ 0).cache.get
        "property_featured" = c7Store.cache.get "property_featured" ∧
      (performDestroy c7Store 9).cache.get "property_featured" =
        c7Store.cache.get "property_featured")) :=
  property_write_invalidates_cache c7Store ⟨9, "for_rent", false, false, 0, 0, none⟩
    0 9 "property_list:h1" (by decide) "property_featured" (by decide)

/-- **C2 (code evaluation).** The claimed like/unlike counter maintenance is
unreachable and unimplemented: every call to the like endpoint raises
`FieldError` (its queryset annotates `Count('likes')` but the relation is
named `liked_by`) with the state unchanged; a direct model-level
`ReviewLike.save` raises `AttributeError` from the chained overridden
`Review.save` (rolled back inside `get_or_create`'s atomic block on the
endpoint path); and deleting a `ReviewLike` row touches no review row — the
model defines no `delete` override, so the claimed delete-side recompute
exists nowhere in the code. -/
theorem review_like_endpoint_always_errors (s : ReviewStore) (u rid : Nat) :
    reviewLikeToggle s u rid = (s, .error "FieldError") ∧
    (reviewLikeSave s u rid).2 = .attributeError "update_average_rating" ∧
    (reviewLikeDeleteRow s u rid).reviews = s.reviews := by
  refine ⟨?_, ?_, ?_⟩ <;> rfl

/-! ### Claim C3: Review.save calls a method Property does not define -/

/-- **C3.** Every review create or update through the model save path raises
an `AttributeError`: `Review.save` calls
`self.property.update_average_rating()` but no attribute of that name exists
on the Property class, so neither request path ever completes successfully
(the lookup fails after the row itself was written). -/
theorem review_save_raises_attribute_error (s : ReviewStore) (r : Review) :
    (reviewModelSave s r).2 = .attributeError "update_average_rating" ∧
    (reviewCreateRequest s r).2 = .attributeError "update_average_rating" ∧
    (reviewUpdateRequest s r).2 = .attributeError "update_average_rating" := by
  refine ⟨?_, ?_, ?_⟩ <;> rfl

/-! ### Notification lemmas -/

theorem markAsRead_id (n : Notification) (now : Nat) :
    (n.markAsRead now).id = n.id := by
  unfold Notification.markAsRead
  by_cases h : n.is_read = true <;> simp [h]

theorem markAsRead_of_read (n : Notification) (now : Nat) (h : n.is_read = true) :
    n.markAsRead now = n := by
  simp [Notification.markAsRead, h]

theorem markAsRead_readAt_isSome (n : Notification) (now : Nat)
    (h : n.read_at.isSome = true) : (n.markAsRead now).read_at.isSome = true := by
  unfold Notification.markAsRead
  by_cases hr : n.is_read = true <;> simp [hr, h]

/-- Mapping an id-preserving, read-monotone function over the notification
table keeps every row findable with its read state at least as read. -/
theorem findById_map_mono (l : List Notification) (f : Notification → Notification)
    (hid : ∀ x, (f x).id = x.id)
    (hrd : ∀ x, x.is_read = true → (f x).is_read = true)
    (hra : ∀ x, x.read_at.isSome = true → (f x).read_at.isSome = true)
    (i : Nat) (n : Notification)
    (h : l.find? (fun m => m.id == i) = some n) :
    ∃ n', (l.map f).find? (fun m => m.id == i) = some n' ∧
      (n.is_read = true → n'.is_read = true) ∧
      (n.read_at.isSome = true → n'.read_at.isSome = true) := by
  refine ⟨f n, ?_, hrd n, hra n⟩
  rw [find_map_key Notification.id f hid l i, h]
  rfl

/-- Marking one target row read (by id) is read-monotone for every row. -/
theorem findById_mark_one_mono (l : List Notification) (tid now i : Nat)
    (n : Notification) (h : l.find? (fun m => m.id == i) = some n) :
    ∃ n', (l.map fun m => if m.id == tid then m.markAsRead now else m).find?
        (fun m => m.id == i) = some n' ∧
      (n.is_read = true → n'.is_read = true) ∧
      (n.read_at.isSome = true → n'.read_at.isSome = true) := by
  refine findById_map_mono l _ ?_ ?_ ?_ i n h
  · intro x
    by_cases hc : (x.id == tid) = true <;> simp [hc, markAsRead_id]
  · intro x hx
    by_cases hc : (x.id == tid) = true <;> simp [hc, markAsRead_of_read x now hx, hx]
  · intro x hx
    by_cases hc : (x.id == tid) = true <;> simp [hc, markAsRead_readAt_isSome x now hx, hx]

/-- A conditional set-based `update(is_read=True, read_at=now)` is
read-monotone for every row, whatever the row condition is. -/
theorem findById_condSet_mono (l : List Notification) (c : Notification → Bool)
    (now : Nat) (i : Nat) (n : Notification)
    (h : l.find? (fun m => m.id == i) = some n) :
    ∃ n', (l.map fun m =>
        if c m then { m with is_read := true, read_at := some now } else m).find?
          (fun m => m.id == i) = some n' ∧
      (n.is_read = true → n'.is_read = true) ∧
      (n.read_at.isSome = true → n'.read_at.isSome = true) := by
  refine findById_map_mono l _ ?_ ?_ ?_ i n h
  · intro x
    by_cases hc : c x = true <;> simp [hc]
  · intro x hx
    by_cases hc : c x = true <;> simp [hc, hx]
  · intro x hx
    by_cases hc : c x = true <;> simp [hc, hx]

theorem mostRecent_eq_none (l : List Notification) (h : mostRecent l = none) :
    l = [] := by
  cases l with
  | nil => rfl
  | cons a l =>
    simp only [mostRecent] at h
    cases hm : mostRecent l with
    | none =>
      simp only [hm] at h
      cases h
    | some m =>
      simp only [hm] at h
      split at h <;> simp at h

theorem mostRecent_mem (l : List Notification) (n : Notification)
    (h : mostRecent l = some n) : n ∈ l := by
  induction l with
  | nil => cases h
  | cons a l ih =>
    simp only [mostRecent] at h
    cases hm : mostRecent l with
    | none =>
      simp only [hm, Option.some.injEq] at h
      rw [← h]
      exact List.mem_cons_self a l
    | some m =>
      simp only [hm] at h
      by_cases hcmp : m.created_at ≤ a.created_at
      · rw [if_pos hcmp] at h
        have han : a = n := by injection h
        rw [← han]
        exact List.mem_cons_self a l
      · rw [if_neg hcmp] at h
        have hmn : m = n := by injection h
        rw [hmn] at hm
        exact List.mem_cons_of_mem a (ih hm)

theorem mostRecent_le (l : List Notification) (n : Notification)
    (h : mostRecent l = some n) : ∀ x ∈ l, x.created_at ≤ n.created_at := by
  induction l generalizing n with
  | nil => intro x hx; cases hx
  | cons a l ih =>
    intro x hx
    simp only [mostRecent] at h
    cases hm : mostRecent l with
    | none =>
      simp only [hm, Option.some.injEq] at h
      rw [← h]
      rcases List.mem_cons.mp hx with rfl | hxl
      · exact Nat.le_refl _
      · rw [mostRecent_eq_none l hm] at hxl; cases hxl
    | some m =>
      simp only [hm] at h
      by_cases hcmp : m.created_at ≤ a.created_at
      · rw [if_pos hcmp] at h
        have han : a = n := by injection h
        rw [← han]
        rcases List.mem_cons.mp hx with rfl | hxl
        · exact Nat.le_refl _
        · exact Nat.le_trans (ih m hm x hxl) hcmp
      · rw [if_neg hcmp] at h
        have hmn : m = n := by injection h
        rw [← hmn]
        rcases List.mem_cons.mp hx with rfl | hxl
        · exact Nat.le_of_lt (Nat.lt_of_not_le hcmp)
        · exact ih m hm x hxl

/-- **C9 (counterexample).** The claim says no notification API operation
ever sets `is_read` back to false or clears `read_at`. But the serializer
leaves both fields writable (only `id`, `user`, `created_at` are read-only),
so a partial update on an already-read notification reverts it to unread and
clears the timestamp. -/
theorem notification_update_reverts_read_state :
    findById (notifPartialUpdate c9Store 1 1 c9Patch) 1 =
      some ⟨1, 1, "t", "m", "system", false, none, none, 10⟩ := by
  decide

/-- **C9 (amended).** Under retrieve, mark_read and mark_all_read the read
state is one-way and monotonic: a notification that was read stays read and a
stamped `read_at` stays stamped. (Update and partial update are excluded:
they accept `is_read`/`read_at` in the request body; see
`notification_update_reverts_read_state`.) -/
theorem notification_read_monotone (s : NotifStore) (u pk : Nat)
    (ids : List Nat) (now i : Nat) (n : Notification)
    (h : findById s i = some n) :
    (∃ n₁, findById (notifRetrieve s u pk now) i = some n₁ ∧
      (n.is_read = true → n₁.is_read = true) ∧
      (n.read_at.isSome = true → n₁.read_at.isSome = true)) ∧
    (∃ n₂, findById (markAllRead s u now).1 i = some n₂ ∧
      (n.is_read = true → n₂.is_read = true) ∧
      (n.read_at.isSome = true → n₂.read_at.isSome = true)) ∧
    (∃ n₃, findById (markRead s u ids now).1 i = some n₃ ∧
      (n.is_read = true → n₃.is_read = true) ∧
      (n.read_at.isSome = true → n₃.read_at.isSome = true)) := by
  refine ⟨?_, ?_, ?_⟩
  · unfold notifRetrieve
    cases hfind : (s.notifications.filter (fun n => n.user == u)).find?
        (fun n => n.id == pk) with
    | none => exact ⟨n, h, fun hx => hx, fun hx => hx⟩
    | some n0 => exact findById_mark_one_mono s.notifications n0.id now i n h
  · exact findById_condSet_mono s.notifications
      (fun n => n.user == u && !n.is_read) now i n h
  · unfold markRead
    cases hemp : ids.isEmpty with
    | false =>
      exact findById_condSet_mono s.notifications
        (fun n => n.user == u && ids.contains n.id && !n.is_read) now i n h
    | true =>
      cases hmr : mostRecent (s.notifications.filter
          (fun n => n.user == u && !n.is_read)) with
      | none => exact ⟨n, h, fun hx => hx, fun hx => hx⟩
      | some n0 => exact findById_mark_one_mono s.notifications n0.id now i n h

theorem notification_read_monotone_witness :
    (∃ n₁, findById (notifRetrieve c9wStore 1 1 9) 1 = some n₁ ∧
      (c9wNotif.is_read = true → n₁.is_read = true) ∧
      (c9wNotif.read_at.isSome = true → n₁.read_at.isSome = true)) ∧
    (∃ n₂, findById (markAllRead c9wStore 1 9).1 1 = some n₂ ∧
      (c9wNotif.is_read = true → n₂.is_read = true) ∧
      (c9wNotif.read_at.isSome = true → n₂.read_at.isSome = true)) ∧
    (∃ n₃, findById (markRead c9wStore 1 [1] 9).1 1 = some n₃ ∧
      (c9wNotif.is_read = true → n₃.is_read = true) ∧
      (c9wNotif.read_at.isSome = true → n₃.read_at.isSome = true)) :=
  notification_read_monotone c9wStore 1 1 [1] 9 1 c9wNotif (by decide)

/-! ### Claim C10: mark_read with no ids -/

/-- **C10.** With `notification_ids` absent or empty, `mark_read` marks
exactly one notification — the user's most recent unread one — and returns
count 1; with no unread notification it returns count 0 and changes nothing.
It does not mark all unread notifications: every row other than the chosen
one is left exactly as it was. -/
theorem mark_read_defaults_to_single (s : NotifStore) (u now : Nat)
    (hnd : (s.notifications.map fun n => n.id).Nodup) :
    (s.notifications.filter (fun n => n.user == u && !n.is_read) = [] →
      markRead s u [] now = (s, 0)) ∧
    (s.notifications.filter (fun n => n.user == u && !n.is_read) ≠ [] →
      (markRead s u [] now).2 = 1 ∧
      ∃ n, n ∈ s.notifications ∧ n.user = u ∧ n.is_read = false ∧
        (∀ y ∈ s.notifications, y.user = u → y.is_read = false →
          y.created_at ≤ n.created_at) ∧
        findById (markRead s u [] now).1 n.id =
          some { n with is_read := true, read_at := some now } ∧
        (∀ m ∈ s.notifications, m.id ≠ n.id →
          findById (markRead s u [] now).1 m.id = some m)) := by
  constructor
  · intro hempty
    simp [markRead, hempty, mostRecent]
  · intro hne
    have hsome : (mostRecent (s.notifications.filter
        (fun n => n.user == u && !n.is_read))).isSome := by
      cases hm : mostRecent (s.notifications.filter
          (fun n => n.user == u && !n.is_read)) with
      | none => exact absurd (mostRecent_eq_none _ hm) hne
      | some m => rfl
    obtain ⟨n0, hmr⟩ := Option.isSome_iff_exists.mp hsome
    have hn0mem := List.mem_filter.mp (mostRecent_mem _ _ hmr)
    have hn0p := (Bool.and_eq_true _ _).mp hn0mem.2
    have hu : n0.user = u := by simpa using hn0p.1
    have hr : n0.is_read = false := by simpa using hn0p.2
    have hidf : ∀ x : Notification,
        ((fun m => if m.id == n0.id then m.markAsRead now else m) x).id = x.id := by
      intro x
      by_cases hc : (x.id == n0.id) = true <;> simp [hc, markAsRead_id]
    have hmrk : markRead s u [] now =
        (⟨s.notifications.map fun m =>
            if m.id == n0.id then m.markAsRead now else m⟩, 1) := by
      simp [markRead, hmr]
    refine ⟨by rw [hmrk], n0, hn0mem.1, hu, hr, ?_, ?_, ?_⟩
    · intro y hy hyu hyr
      exact mostRecent_le _ _ hmr y (List.mem_filter.mpr ⟨hy, by simp [hyu, hyr]⟩)
    · rw [hmrk]
      simp only [findById]
      rw [find_map_key Notification.id _ hidf,
        find_key_of_nodup Notification.id s.notifications hnd n0 hn0mem.1]
      simp [Notification.markAsRead, hr]
    · intro m hm hmne
      rw [hmrk]
      simp only [findById]
      rw [find_map_key Notification.id _ hidf,
        find_key_of_nodup Notification.id s.notifications hnd m hm]
      simp [hmne]

theorem mark_read_defaults_to_single_witness :
    (markRead c10Store 1 [] 7).2 = 1 ∧
    ∃ n, n ∈ c10Store.notifications ∧ n.user = 1 ∧ n.is_read = false ∧
      (∀ y ∈ c10Store.notifications, y.user = 1 → y.is_read = false →
        y.created_at ≤ n.created_at) ∧
      findById (markRead c10Store 1 [] 7).1 n.id =
        some { n with is_read := true, read_at := some 7 } ∧
      (∀ m ∈ c10Store.notifications, m.id ≠ n.id →
        findById (markRead c10Store 1 [] 7).1 m.id = some m) :=
  (mark_read_defaults_to_single c10Store 1 7 (by decide)).2 (by decide)

end Immob
